import Mathlib

/-!
Verification of the volume-assembly pipeline of the PACS volume viewer
(`src/components/VolumeViewer/volumeRenderer.ts`, embedded in
`VolumeViewer.tsx`): spatial sorting of decoded DICOM slices, spacing and
origin derivation, pixel-kind selection, and assembly of the contiguous
scalar buffer.

The embedding models JavaScript values as follows:
* numbers are rationals (`ℚ`); `Float32` values appearing in the examples
  are exactly representable, so no rounding is modelled;
* optional object properties are `Option` fields; the JavaScript `x || d`
  defaulting operator is `orFalsy`/`natOrFalsy`/`strOrFalsy`, which also
  replaces the falsy values `0` and `""` (arrays are always truthy, so an
  array-valued `x || d` is `Option.getD`);
* `Date.now()` is an explicit `now : Nat` parameter;
* a typed array is its element list together with a `PixelKind`;
  `TypedArray.prototype.set` converts each source element to the
  destination kind (truncation toward zero, then modular wrapping for the
  integer kinds) and throws a `RangeError` when the source overruns the
  destination; a fresh typed array is zero-filled;
* a thrown exception is an `Except.error`; the `TypeError` raised by
  reading a property of `images[0]` when the slice list is empty is the
  `emptyInput` error.
-/

deriving instance DecidableEq for Except

namespace Pacs

/-- One JavaScript world-space point or vector: three rational coordinates. -/
abbrev Vec3 := ℚ × ℚ × ℚ

/-- Cross product, used by the sorter to compute the scan-axis normal. -/
def cross (a b : Vec3) : Vec3 :=
  (a.2.1 * b.2.2 - a.2.2 * b.2.1,
   a.2.2 * b.1 - a.1 * b.2.2,
   a.1 * b.2.1 - a.2.1 * b.1)

/-- Dot product, used to project a slice position onto the scan axis. -/
def dot (a b : Vec3) : ℚ :=
  a.1 * b.1 + a.2.1 * b.2.1 + a.2.2 * b.2.2

/-- The five typed-array element kinds of `DicomImage.getPixelData`
(`types.ts`): `Int16Array | Uint16Array | Float32Array | Int8Array |
Uint8Array`. -/
inductive PixelKind where
  | int8
  | uint8
  | int16
  | uint16
  | float32
deriving DecidableEq

/-- Truncation toward zero of a rational, the `ToIntegerOrInfinity` step of
storing a JavaScript number into an integer typed array. On a normalized
rational, `Int.div` (T-division) truncates toward zero. -/
def ratTruncTowardZero (v : ℚ) : Int :=
  Int.tdiv v.num (v.den : Int)

/-- Wrap an integer into the unsigned range of `w` bits. -/
def toUnsigned (w : Nat) (n : Int) : Int :=
  n % ((2 : Int) ^ w)

/-- Wrap an integer into the signed two's-complement range of `w` bits. -/
def toSigned (w : Nat) (n : Int) : Int :=
  let m := n % ((2 : Int) ^ w)
  if m < (2 : Int) ^ (w - 1) then m else m - (2 : Int) ^ w

/-- Value stored when a JavaScript number is written into a typed array of
this kind (`SetValueInBuffer`): integer kinds truncate toward zero and wrap
modulo the bit width; `float32` values in scope are exactly representable
and kept as-is. -/
def PixelKind.store : PixelKind → ℚ → ℚ
  | .int8, v => ((toSigned 8 (ratTruncTowardZero v) : Int) : ℚ)
  | .uint8, v => ((toUnsigned 8 (ratTruncTowardZero v) : Int) : ℚ)
  | .int16, v => ((toSigned 16 (ratTruncTowardZero v) : Int) : ℚ)
  | .uint16, v => ((toUnsigned 16 (ratTruncTowardZero v) : Int) : ℚ)
  | .float32, v => v

/-- A rational is representable in a kind when storing it is the identity;
every value actually held by a typed array of that kind satisfies this. -/
def PixelKind.valid (k : PixelKind) (v : ℚ) : Prop :=
  k.store v = v

instance (k : PixelKind) (v : ℚ) : Decidable (k.valid v) := by
  unfold PixelKind.valid
  infer_instance

/-- The `DicomImage` record of `types.ts`: one decoded slice. `getPixelData`
is modelled by the element kind `pixelKind` plus the element list
`pixelData`; `origin` is the slice `ImagePositionPatient` and the first six
entries of `direction` are the two `ImageOrientationPatient` axes. -/
structure DicomImage where
  rows : Nat
  columns : Nat
  columnPixelSpacing : Option ℚ := none
  rowPixelSpacing : Option ℚ := none
  sliceThickness : Option ℚ := none
  origin : Option Vec3 := none
  direction : Option (List ℚ) := none
  frameOfReferenceUID : Option String := none
  rescaleSlope : Option ℚ := none
  rescaleIntercept : Option ℚ := none
  modality : Option String := none
  photometricInterpretation : Option String := none
  bitsAllocated : Option Nat := none
  bitsStored : Option Nat := none
  highBit : Option Nat := none
  pixelRepresentation : Option Nat := none
  windowCenter : Option ℚ := none
  windowWidth : Option ℚ := none
  pixelKind : PixelKind
  pixelData : List ℚ
deriving DecidableEq

/-- JavaScript `x || d` on an optional number: `undefined`, and the falsy
number `0`, fall back to the default. -/
def orFalsy (x : Option ℚ) (d : ℚ) : ℚ :=
  match x with
  | none => d
  | some v => if v = 0 then d else v

/-- JavaScript `x || d` on an optional nonnegative integer property. -/
def natOrFalsy (x : Option Nat) (d : Nat) : Nat :=
  match x with
  | none => d
  | some v => if v = 0 then d else v

/-- JavaScript `x || d` on an optional string: `undefined` and the falsy
empty string fall back to the default. -/
def strOrFalsy (x : Option String) (d : String) : String :=
  match x with
  | none => d
  | some s => if s = "" then d else s

/-- Errors surfaced by the embedded assembly pipeline. `emptyInput` is the
`TypeError` thrown by `sortImages` when the slice list is empty (reading
`images[0].sliceThickness` of `undefined`); `rangeError` is the
`RangeError` thrown by `TypedArray.prototype.set` when a source array
overruns the destination buffer. -/
inductive AssemblyError where
  | emptyInput
  | rangeError
deriving DecidableEq

/-- The two in-plane orientation axes of a slice: the first six entries of
its `direction` metadata (`ImageOrientationPatient`), when present. -/
def orientationOf (img : DicomImage) : Option (Vec3 × Vec3) :=
  match img.direction with
  | none => none
  | some d =>
    if 6 ≤ d.length then
      some ((d.getD 0 0, d.getD 1 0, d.getD 2 0),
            (d.getD 3 0, d.getD 4 0, d.getD 5 0))
    else none

/-- Depth of a slice along the scan axis: its position projected onto the
scan-axis normal. -/
def depthAlong (normal : Vec3) (img : DicomImage) : ℚ :=
  dot normal (img.origin.getD (0, 0, 0))

/-- Modelled from the spec: `csUtilities.sortImageIdsAndGetSpacing` is part
of the excluded `@cornerstonejs/core` collaborator, not of this
repository's sources; §4.1 (primary path) specifies it. The scan-axis
normal is the cross product of the first slice's two orientation axes; each
slice's position projects onto it as a depth; slices are sorted ascending
by depth by a stable sort; `zSpacing` is (depth of last − depth of first) /
(N − 1); the origin is the position of the depth-minimal slice. It throws
(`none`) when the first slice lacks position or orientation, or when N ≤ 1.
The identifier-to-image correspondence is modelled by sorting the decoded
images directly. -/
def sortImageIdsAndGetSpacing (images : List DicomImage) :
    Option (List DicomImage × ℚ × Vec3) :=
  match images with
  | [] => none
  | [_] => none
  | image0 :: _ :: _ =>
    match image0.origin, orientationOf image0 with
    | some _, some (rowDir, colDir) =>
      let normal := cross rowDir colDir
      let sorted := List.insertionSort
        (fun a b => depthAlong normal a ≤ depthAlong normal b) images
      let firstDepth := ((sorted.head?.map (depthAlong normal)).getD 0)
      let lastDepth := ((sorted.getLast?.map (depthAlong normal)).getD 0)
      let sortedOrigin := ((sorted.head?.bind DicomImage.origin).getD (0, 0, 0))
      some (sorted, (lastDepth - firstDepth) / ((images.length : ℚ) - 1),
            sortedOrigin)
    | _, _ => none

/-- The `sortImages` helper of `volumeRenderer.ts`: the library sorter
inside a `try`, with the `catch` falling back to input order, `zSpacing =
image0.sliceThickness || 1.0`, and `volumeOrigin = image0.origin ||
[0, 0, 0]`. On an empty list the `catch` block itself throws reading
`images[0]`. -/
def sortImages (images : List DicomImage) :
    Except AssemblyError (List DicomImage × ℚ × Vec3) :=
  match sortImageIdsAndGetSpacing images with
  | some result => .ok result
  | none =>
    match images.head? with
    | none => .error .emptyInput
    | some image0 =>
      .ok (images, orFalsy image0.sliceThickness 1, image0.origin.getD (0, 0, 0))

/-- One `TypedArray.prototype.set` call: bounds check, then overwrite
`src.length` elements of `dest` starting at `offset` (the caller has
already converted `src` to the destination kind). -/
def bufferSet (dest src : List ℚ) (offset : Nat) :
    Except AssemblyError (List ℚ) :=
  if offset + src.length ≤ dest.length then
    .ok (dest.take offset ++ src ++ dest.drop (offset + src.length))
  else .error .rangeError

/-- The copy loop `sortedImages.forEach((img, i) =>
scalarData.set(img.getPixelData(), i * sliceSize))`: each slice's samples
are converted to the buffer kind and written at offset `i * sliceSize`. -/
def copySlices (kind : PixelKind) (sliceSize : Nat) (buf : List ℚ) :
    List DicomImage → Nat → Except AssemblyError (List ℚ)
  | [], _ => .ok buf
  | img :: rest, i =>
    match bufferSet buf (img.pixelData.map kind.store) (i * sliceSize) with
    | .ok buf2 => copySlices kind sliceSize buf2 rest (i + 1)
    | .error e => .error e

/-- Contents of one z-slot of the scalar buffer after the copy loop: the
slice's samples converted to the buffer kind, followed by the untouched
zero initialization of the slot's tail. -/
def paddedSlice (k : PixelKind) (s : Nat) (img : DicomImage) : List ℚ :=
  img.pixelData.map k.store ++ List.replicate (s - img.pixelData.length) 0

/-- Default string constants of `volumeRenderer.ts`. -/
def defaultModality : String := "CT"

/-- Default photometric interpretation (`'MONOCHROME2'`). -/
def defaultPhotometric : String := "MONOCHROME2"

/-- Default VOI LUT function (`'LINEAR'`). -/
def linearLutFunction : String := "LINEAR"

/-- Fallback frame-of-reference identifier built from the wall clock, the
template literal `FOR-${Date.now()}`. -/
def forFallbackUID (now : Nat) : String :=
  "FOR-" ++ Nat.repr now

/-- The metadata block passed to `volumeLoader.createLocalVolume`. -/
structure VolumeMetadata where
  frameOfReferenceUID : String
  modality : String
  columns : Nat
  rows : Nat
  samplesPerPixel : Nat
  pixelSpacing : ℚ × ℚ
  imageOrientationPatient : List ℚ
  bitsAllocated : Nat
  bitsStored : Nat
  highBit : Nat
  pixelRepresentation : Nat
  photometricInterpretation : String
  voiLut : List ℚ
  voiLutFunction : String
deriving DecidableEq

/-- The volume value handed to `volumeLoader.createLocalVolume`:
dimensions, spacing, scalar buffer (with its resolved element kind),
direction, origin, and metadata. -/
structure Volume where
  dimensions : Nat × Nat × Nat
  spacing : ℚ × ℚ × ℚ
  scalarKind : PixelKind
  scalarData : List ℚ
  direction : List ℚ
  origin : Vec3
  metadata : VolumeMetadata
deriving DecidableEq

/-- Identity direction basis, the `[1, 0, 0, 0, 1, 0, 0, 0, 1]` default. -/
def identityDirection : List ℚ := [1, 0, 0, 0, 1, 0, 0, 0, 1]

/-- Identity in-plane orientation, the `[1, 0, 0, 0, 1, 0]` default. -/
def identityOrientation : List ℚ := [1, 0, 0, 0, 1, 0]

/-- The volume record and metadata block built by `createVolumeViewport`
and handed to `volumeLoader.createLocalVolume`, with its per-field
JavaScript `||` defaults. `image0` is the first post-sort slice and `now`
is `Date.now()`. -/
def buildVolume (now : Nat) (image0 : DicomImage) (sliceCount : Nat)
    (zSpacing : ℚ) (volumeOrigin : Vec3) (scalarData : List ℚ) : Volume :=
  { dimensions := (image0.columns, image0.rows, sliceCount)
    spacing := (orFalsy image0.columnPixelSpacing 1,
                orFalsy image0.rowPixelSpacing 1, zSpacing)
    scalarKind := image0.pixelKind
    scalarData := scalarData
    direction := image0.direction.getD identityDirection
    origin := volumeOrigin
    metadata := {
      frameOfReferenceUID :=
        strOrFalsy image0.frameOfReferenceUID (forFallbackUID now)
      modality := strOrFalsy image0.modality defaultModality
      columns := image0.columns
      rows := image0.rows
      samplesPerPixel := 1
      pixelSpacing := (orFalsy image0.columnPixelSpacing 1,
                       orFalsy image0.rowPixelSpacing 1)
      imageOrientationPatient :=
        match image0.direction with
        | some d => d.take 6
        | none => identityOrientation
      bitsAllocated := natOrFalsy image0.bitsAllocated 16
      bitsStored := natOrFalsy image0.bitsStored 12
      highBit := natOrFalsy image0.highBit 11
      pixelRepresentation := natOrFalsy image0.pixelRepresentation 0
      photometricInterpretation :=
        strOrFalsy image0.photometricInterpretation defaultPhotometric
      voiLut := []
      voiLutFunction := linearLutFunction } }

/-- The volume-assembly core of `createVolumeViewport` in
`volumeRenderer.ts` (the rendering-engine, tool-group, and viewport calls
around it act on the excluded rendering collaborator and produce no part of
the volume value): sort the decoded slices, take `rows`, `columns` and the
pixel kind from the first post-sort slice, allocate the zero-filled scalar
buffer of `sliceSize * sliceCount` elements, copy each slice into its
z-slot, and build the volume record and its metadata. `now` is
`Date.now()`. -/
def createVolumeViewport (now : Nat) (images : List DicomImage) :
    Except AssemblyError Volume :=
  match sortImages images with
  | .error e => .error e
  | .ok (sortedImages, zSpacing, volumeOrigin) =>
    match sortedImages.head? with
    | none => .error .emptyInput
    | some image0 =>
      match copySlices image0.pixelKind (image0.rows * image0.columns)
          (List.replicate ((image0.rows * image0.columns) * sortedImages.length) 0)
          sortedImages 0 with
      | .error e => .error e
      | .ok scalarData =>
        .ok (buildVolume now image0 sortedImages.length zSpacing volumeOrigin
              scalarData)

/-- The spec's single exposed operation `assembleVolume`: the assembly core
applied to the already-decoded slices (decoding is the excluded
collaborator; `DecodeFailure` would abort before this point). -/
def assembleVolume (now : Nat) (images : List DicomImage) :
    Except AssemblyError Volume :=
  createVolumeViewport now images

/-! Concrete slice and volume fixtures used by the witness and
counterexample theorems. -/

/-- Metadata produced for a slice that carries none of the optional
descriptive tags. -/
def plainMetadata (uid : String) (columns rows : Nat) : VolumeMetadata :=
  { frameOfReferenceUID := uid
    modality := defaultModality
    columns := columns
    rows := rows
    samplesPerPixel := 1
    pixelSpacing := (1, 1)
    imageOrientationPatient := identityOrientation
    bitsAllocated := 16
    bitsStored := 12
    highBit := 11
    pixelRepresentation := 0
    photometricInterpretation := defaultPhotometric
    voiLut := []
    voiLutFunction := linearLutFunction }

/-- Slice with position z = 30 and identity orientation. -/
def geoSliceA : DicomImage :=
  { rows := 1
    columns := 1
    origin := some (0, 0, 30)
    direction := some identityDirection
    pixelKind := .int16
    pixelData := [1] }

/-- Slice with position z = 10 (and in-plane offsets 5, 6). -/
def geoSliceB : DicomImage :=
  { rows := 1
    columns := 1
    origin := some (5, 6, 10)
    direction := some identityDirection
    pixelKind := .int16
    pixelData := [2] }

/-- Slice with position z = 20 and identity orientation. -/
def geoSliceC : DicomImage :=
  { rows := 1
    columns := 1
    origin := some (0, 0, 20)
    direction := some identityDirection
    pixelKind := .int16
    pixelData := [3] }

/-- A 4x4 16-bit slice without geometric tags, samples 1..16. -/
def sliceA4 : DicomImage :=
  { rows := 4
    columns := 4
    pixelKind := .int16
    pixelData := [1, 2, 3, 4, 5, 6, 7, 8, 9, 10, 11, 12, 13, 14, 15, 16] }

/-- A second 4x4 16-bit slice, samples 17..32. -/
def sliceB4 : DicomImage :=
  { rows := 4
    columns := 4
    pixelKind := .int16
    pixelData := [17, 18, 19, 20, 21, 22, 23, 24, 25, 26, 27, 28, 29, 30, 31, 32] }

/-- A 2x8 slice: same 16-sample area as `sliceA4` but different `rows` and
`columns`. -/
def mismatchB : DicomImage :=
  { rows := 2
    columns := 8
    pixelKind := .int16
    pixelData := [1, 1, 1, 1, 1, 1, 1, 1, 1, 1, 1, 1, 1, 1, 1, 1] }

/-- The volume assembled from `[sliceA4, sliceB4]` at `now = 0`. -/
def volAB : Volume :=
  { dimensions := (4, 4, 2)
    spacing := (1, 1, 1)
    scalarKind := .int16
    scalarData := [1, 2, 3, 4, 5, 6, 7, 8, 9, 10, 11, 12, 13, 14, 15, 16,
                   17, 18, 19, 20, 21, 22, 23, 24, 25, 26, 27, 28, 29, 30, 31, 32]
    direction := identityDirection
    origin := (0, 0, 0)
    metadata := plainMetadata (forFallbackUID 0) 4 4 }

/-- Single slice whose `sliceThickness` is present but zero. -/
def zeroThicknessSlice : DicomImage :=
  { rows := 1
    columns := 1
    sliceThickness := some 0
    pixelKind := .int16
    pixelData := [7] }

/-- Single slice without geometric tags and `sliceThickness = 2.5`. -/
def fallbackSlice : DicomImage :=
  { rows := 1
    columns := 1
    sliceThickness := some (5 / 2)
    pixelKind := .int16
    pixelData := [7] }

/-- A 1x1 16-bit slice with sample 100. -/
def mixImgA : DicomImage :=
  { rows := 1
    columns := 1
    pixelKind := .int16
    pixelData := [100] }

/-- A 1x1 32-bit float slice with sample 1.5. -/
def mixImgB : DicomImage :=
  { rows := 1
    columns := 1
    pixelKind := .float32
    pixelData := [3 / 2] }

/-- The volume assembled from `[mixImgA, mixImgB]` at `now = 0`: the float
sample 1.5 lands as the truncated 16-bit value 1. -/
def volMixed : Volume :=
  { dimensions := (1, 1, 2)
    spacing := (1, 1, 1)
    scalarKind := .int16
    scalarData := [100, 1]
    direction := identityDirection
    origin := (0, 0, 0)
    metadata := plainMetadata (forFallbackUID 0) 1 1 }

/-- A 1x2 16-bit slice with both samples present. -/
def shortImgA : DicomImage :=
  { rows := 1
    columns := 2
    pixelKind := .int16
    pixelData := [3, 4] }

/-- A 1x2 16-bit slice with only one sample (shorter than its slot). -/
def shortImgB : DicomImage :=
  { rows := 1
    columns := 2
    pixelKind := .int16
    pixelData := [7] }

/-- The volume assembled from `[shortImgA, shortImgB]` at `now = 0`: the
tail of the second z-slot keeps its zero initialization. -/
def volShort : Volume :=
  { dimensions := (2, 1, 2)
    spacing := (1, 1, 1)
    scalarKind := .int16
    scalarData := [3, 4, 7, 0]
    direction := identityDirection
    origin := (0, 0, 0)
    metadata := plainMetadata (forFallbackUID 0) 2 1 }

/-- A sample frame-of-reference identifier. -/
def uidSample : String := "FRAME-1"

/-- A 1x1 slice carrying a frame-of-reference identifier. -/
def uidImg : DicomImage :=
  { rows := 1
    columns := 1
    frameOfReferenceUID := some uidSample
    pixelKind := .int16
    pixelData := [5] }

end Pacs

namespace Pacs

theorem bufferSet_length {dest src : List ℚ} {offset : Nat} {out : List ℚ}
    (h : bufferSet dest src offset = .ok out) : out.length = dest.length := by
  unfold bufferSet at h
  split at h
  · cases h
    simp only [List.length_append, List.length_take, List.length_drop]
    omega
  · cases h

theorem copySlices_length {k : PixelKind} {s : Nat} {imgs : List DicomImage} :
    ∀ {i : Nat} {buf out : List ℚ},
    copySlices k s buf imgs i = .ok out → out.length = buf.length := by
  induction imgs with
  | nil =>
    intro i buf out h
    cases h
    rfl
  | cons img rest ih =>
    intro i buf out h
    unfold copySlices at h
    cases hset : bufferSet buf (img.pixelData.map k.store) (i * s) with
    | ok buf2 =>
      rw [hset] at h
      exact (ih h).trans (bufferSet_length hset)
    | error e =>
      rw [hset] at h
      cases h

theorem copySlices_eq_flatten {k : PixelKind} {s : Nat} :
    ∀ (imgs : List DicomImage) (i : Nat) (front : List ℚ),
    front.length = i * s →
    (∀ img ∈ imgs, img.pixelData.length ≤ s) →
    copySlices k s (front ++ List.replicate (imgs.length * s) 0) imgs i
      = .ok (front ++ (imgs.map (paddedSlice k s)).flatten) := by
  intro imgs
  induction imgs with
  | nil =>
    intro i front hf _
    simp [copySlices]
  | cons img rest ih =>
    intro i front hf hfit
    have hlen : img.pixelData.length ≤ s := hfit img (by simp)
    have hrest : ∀ im ∈ rest, im.pixelData.length ≤ s :=
      fun im hm => hfit im (List.mem_cons_of_mem _ hm)
    have hcond : i * s + (img.pixelData.map k.store).length
        ≤ (front ++ List.replicate ((img :: rest).length * s) (0 : ℚ)).length := by
      simp only [List.length_append, List.length_map, List.length_replicate, hf,
        List.length_cons, Nat.succ_mul]
      omega
    have hdroparith : (img :: rest).length * s - img.pixelData.length
        = (s - img.pixelData.length) + rest.length * s := by
      simp only [List.length_cons, Nat.succ_mul]
      omega
    have hset : bufferSet (front ++ List.replicate ((img :: rest).length * s) 0)
        (img.pixelData.map k.store) (i * s)
        = .ok (front ++ (img.pixelData.map k.store
            ++ (List.replicate (s - img.pixelData.length) 0
                ++ List.replicate (rest.length * s) 0))) := by
      unfold bufferSet
      rw [if_pos hcond]
      congr 1
      rw [List.take_left' hf]
      rw [List.length_map, ← hf, List.drop_append, List.drop_replicate, hdroparith]
      rw [List.replicate_add]
      simp only [List.append_assoc]
    simp only [copySlices, hset]
    have hfront2 : (front ++ (img.pixelData.map k.store
        ++ List.replicate (s - img.pixelData.length) (0 : ℚ))).length = (i + 1) * s := by
      simp only [List.length_append, List.length_map, List.length_replicate, hf,
        Nat.succ_mul]
      omega
    have hih := ih (i + 1)
      (front ++ (img.pixelData.map k.store
        ++ List.replicate (s - img.pixelData.length) 0))
      hfront2 hrest
    simpa [paddedSlice, List.append_assoc] using hih


theorem sortSpacing_length {images : List DicomImage}
    {r : List DicomImage × ℚ × Vec3}
    (h : sortImageIdsAndGetSpacing images = some r) :
    r.1.length = images.length := by
  cases images with
  | nil => simp [sortImageIdsAndGetSpacing] at h
  | cons a t =>
    cases t with
    | nil => simp [sortImageIdsAndGetSpacing] at h
    | cons b t2 =>
      simp only [sortImageIdsAndGetSpacing] at h
      cases hor : a.origin with
      | none => rw [hor] at h; simp at h
      | some p =>
        cases hornt : orientationOf a with
        | none => rw [hor, hornt] at h; simp at h
        | some q =>
          obtain ⟨rd, cd⟩ := q
          rw [hor, hornt] at h
          simp only [Option.some.injEq] at h
          rw [← h]
          simp only [List.length_insertionSort, List.length_cons]

theorem sortImages_ok_length {images sorted : List DicomImage} {z : ℚ} {o : Vec3}
    (h : sortImages images = .ok (sorted, z, o)) : sorted.length = images.length := by
  unfold sortImages at h
  cases hs : sortImageIdsAndGetSpacing images with
  | some r =>
    rw [hs] at h
    simp only [Except.ok.injEq] at h
    have := sortSpacing_length hs
    rw [h] at this
    exact this
  | none =>
    rw [hs] at h
    cases hh : images.head? with
    | none => rw [hh] at h; cases h
    | some im0 =>
      rw [hh] at h
      simp only [Except.ok.injEq, Prod.mk.injEq] at h
      rw [← h.1]

theorem map_store_of_valid {k : PixelKind} {l : List ℚ}
    (h : ∀ q ∈ l, k.valid q) : l.map k.store = l := by
  induction l with
  | nil => rfl
  | cons a t ih =>
    have ha : k.store a = a := h a (by simp)
    have ht := ih (fun q hq => h q (List.mem_cons_of_mem _ hq))
    simp [ha, ht]

theorem flatten_slot {s : Nat} :
    ∀ (L : List (List ℚ)) (i : Nat) (hi : i < L.length),
    (∀ l ∈ L, l.length = s) →
    ((L.flatten.drop (i * s)).take s) = L.get ⟨i, hi⟩ := by
  intro L
  induction L with
  | nil => intro i hi; exact absurd hi (by simp)
  | cons l rest ih =>
    intro i hi hU
    cases i with
    | zero =>
      simp only [Nat.zero_mul, List.drop_zero, List.flatten_cons]
      exact List.take_left' (hU l (by simp))
    | succ j =>
      have hrl : ∀ x ∈ rest, x.length = s :=
        fun x hx => hU x (List.mem_cons_of_mem _ hx)
      have hls : l.length = s := hU l (by simp)
      have harith : (j + 1) * s = l.length + j * s := by rw [hls]; ring
      rw [List.flatten_cons, harith, List.drop_append]
      have hj : j < rest.length := by simpa using hi
      rw [ih j hj hrl]
      rfl

theorem createVolumeViewport_primary {now : Nat}
    {images sorted : List DicomImage} {z : ℚ} {o : Vec3} {image0 : DicomImage}
    (hs : sortImages images = .ok (sorted, z, o))
    (hh : sorted.head? = some image0) :
    createVolumeViewport now images
      = match copySlices image0.pixelKind (image0.rows * image0.columns)
          (List.replicate ((image0.rows * image0.columns) * sorted.length) 0)
          sorted 0 with
        | .error e => .error e
        | .ok sd => .ok (buildVolume now image0 sorted.length z o sd) := by
  unfold createVolumeViewport
  rw [hs]
  simp only [hh]

theorem createVolumeViewport_ok_inv {now : Nat}
    {images sorted : List DicomImage} {z : ℚ} {o : Vec3} {image0 : DicomImage}
    {v : Volume}
    (hs : sortImages images = .ok (sorted, z, o))
    (hh : sorted.head? = some image0)
    (hv : createVolumeViewport now images = .ok v) :
    ∃ sd, copySlices image0.pixelKind (image0.rows * image0.columns)
        (List.replicate ((image0.rows * image0.columns) * sorted.length) 0)
        sorted 0 = .ok sd
      ∧ v = buildVolume now image0 sorted.length z o sd := by
  rw [createVolumeViewport_primary hs hh] at hv
  cases hc : copySlices image0.pixelKind (image0.rows * image0.columns)
      (List.replicate ((image0.rows * image0.columns) * sorted.length) 0)
      sorted 0 with
  | error e => rw [hc] at hv; cases hv
  | ok sd =>
    rw [hc] at hv
    simp only [Except.ok.injEq] at hv
    exact ⟨sd, rfl, hv.symm⟩

theorem createVolumeViewport_ok_of_fit {now : Nat}
    {images sorted : List DicomImage} {z : ℚ} {o : Vec3} {image0 : DicomImage}
    (hs : sortImages images = .ok (sorted, z, o))
    (hh : sorted.head? = some image0)
    (hfit : ∀ img ∈ sorted, img.pixelData.length ≤ image0.rows * image0.columns) :
    createVolumeViewport now images
      = .ok (buildVolume now image0 sorted.length z o
          ((sorted.map (paddedSlice image0.pixelKind
            (image0.rows * image0.columns))).flatten)) := by
  have hflat := copySlices_eq_flatten (k := image0.pixelKind)
    (s := image0.rows * image0.columns) sorted 0 [] (by simp) hfit
  rw [createVolumeViewport_primary hs hh,
    Nat.mul_comm (image0.rows * image0.columns) sorted.length]
  simp only [List.nil_append] at hflat
  rw [hflat]


theorem createVolumeViewport_ok_elim {now : Nat} {images : List DicomImage}
    {v : Volume}
    (hv : createVolumeViewport now images = .ok v) :
    ∃ sorted z o image0 sd,
      sortImages images = .ok (sorted, z, o)
      ∧ sorted.head? = some image0
      ∧ copySlices image0.pixelKind (image0.rows * image0.columns)
          (List.replicate ((image0.rows * image0.columns) * sorted.length) 0)
          sorted 0 = .ok sd
      ∧ v = buildVolume now image0 sorted.length z o sd := by
  cases hs : sortImages images with
  | error e =>
    unfold createVolumeViewport at hv
    rw [hs] at hv
    simp at hv
  | ok r =>
    obtain ⟨sorted, z, o⟩ := r
    cases hh : sorted.head? with
    | none =>
      unfold createVolumeViewport at hv
      rw [hs] at hv
      simp only [hh] at hv
      simp at hv
    | some image0 =>
      obtain ⟨sd, hc, hveq⟩ := createVolumeViewport_ok_inv hs hh hv
      exact ⟨sorted, z, o, image0, sd, rfl, hh, hc, hveq⟩

/-- C7: on the empty identifier sequence the pipeline fails with the
`emptyInput` error (the `TypeError` thrown inside `sortImages`'s catch
block when `images[0]` is `undefined`) — no volume, and no other error. -/
theorem c7_empty_input (now : Nat) :
    assembleVolume now [] = .error .emptyInput := rfl

/-- C5 counterexample: the claim says the fallback `zSpacing` equals the
first slice's `sliceThickness` whenever it is present, but a present
`sliceThickness = 0` is falsy in JavaScript, so `image0.sliceThickness ||
1.0` yields 1, not 0. -/
theorem c5_counterexample :
    zeroThicknessSlice.sliceThickness = some 0
    ∧ sortImages [zeroThicknessSlice] = .ok ([zeroThicknessSlice], 1, (0, 0, 0))
    ∧ (1 : ℚ) ≠ 0 := by
  refine ⟨rfl, ?_, by norm_num⟩
  with_unfolding_all decide

/-- C5 (amended): whenever the first slice lacks `positionPatient` or
`orientationPatient`, or N = 1, the sorter takes the fallback path without
raising any error: input ordering is preserved, `zSpacing` is the first
slice's `sliceThickness` when present and nonzero (1.0 when absent or
zero), and the origin is the first slice's `positionPatient` ((0,0,0) when
absent). -/
theorem c5_fallback_behaviour (images : List DicomImage) (image0 : DicomImage)
    (hh : images.head? = some image0)
    (htrig : images.length = 1 ∨ image0.origin = none
      ∨ orientationOf image0 = none) :
    sortImages images = .ok (images, orFalsy image0.sliceThickness 1,
      image0.origin.getD (0, 0, 0)) := by
  have hnone : sortImageIdsAndGetSpacing images = none := by
    cases images with
    | nil => cases hh
    | cons a t =>
      have ha : a = image0 := by simpa using hh
      subst ha
      cases t with
      | nil => rfl
      | cons b t2 =>
        rcases htrig with hlen | hor | hornt
        · simp at hlen
        · simp [sortImageIdsAndGetSpacing, hor]
        · cases ho2 : a.origin with
          | none => simp [sortImageIdsAndGetSpacing, ho2]
          | some p => simp [sortImageIdsAndGetSpacing, ho2, hornt]
  simp only [sortImages, hnone, hh]

/-- C5 witness: a single slice with no geometric tags and `sliceThickness
= 2.5` falls back to input order, `zSpacing = 2.5`, origin `(0, 0, 0)`. -/
theorem c5_witness :
    [fallbackSlice].head? = some fallbackSlice
    ∧ ([fallbackSlice].length = 1 ∨ fallbackSlice.origin = none
        ∨ orientationOf fallbackSlice = none)
    ∧ sortImages [fallbackSlice]
        = .ok ([fallbackSlice], orFalsy fallbackSlice.sliceThickness 1,
            fallbackSlice.origin.getD (0, 0, 0))
    ∧ orFalsy fallbackSlice.sliceThickness 1 = 5 / 2 :=
  ⟨rfl, Or.inl rfl,
    c5_fallback_behaviour [fallbackSlice] fallbackSlice rfl (Or.inl rfl),
    by with_unfolding_all decide⟩

/-- C4: the scalar buffer's numeric kind of every assembled volume is the
pixel kind of the first post-sort slice (the runtime constructor of its
`getPixelData()` array), with no widening. -/
theorem c4_kind_policy {now : Nat} {images sorted : List DicomImage} {z : ℚ}
    {o : Vec3} {image0 : DicomImage} {v : Volume}
    (hs : sortImages images = .ok (sorted, z, o))
    (hh : sorted.head? = some image0)
    (hv : createVolumeViewport now images = .ok v) :
    v.scalarKind = image0.pixelKind := by
  obtain ⟨sd, hc, hveq⟩ := createVolumeViewport_ok_inv hs hh hv
  rw [hveq]
  rfl

/-- C4 witness: two 4x4 slices whose first is 16-bit signed produce a
16-bit signed buffer of total length 4 * 4 * 2 = 32. -/
theorem c4_witness :
    createVolumeViewport 0 [sliceA4, sliceB4] = .ok volAB
    ∧ volAB.scalarKind = sliceA4.pixelKind
    ∧ sliceA4.pixelKind = PixelKind.int16
    ∧ volAB.scalarData.length = 32 := by
  have hs : sortImages [sliceA4, sliceB4]
      = .ok ([sliceA4, sliceB4], 1, (0, 0, 0)) := by with_unfolding_all decide
  have hv : createVolumeViewport 0 [sliceA4, sliceB4] = .ok volAB := by
    with_unfolding_all decide
  exact ⟨hv, c4_kind_policy hs rfl hv, rfl, by with_unfolding_all decide⟩

/-- C2: every successfully assembled volume's scalar buffer has length
`columns * rows * sliceCount`, and `sliceCount` is the number of input
slices. -/
theorem c2_buffer_length {now : Nat} {images : List DicomImage} {v : Volume}
    (hv : createVolumeViewport now images = .ok v) :
    v.scalarData.length = v.dimensions.1 * v.dimensions.2.1 * v.dimensions.2.2
    ∧ v.dimensions.2.2 = images.length := by
  obtain ⟨sorted, z, o, image0, sd, hs, hh, hc, hveq⟩ :=
    createVolumeViewport_ok_elim hv
  have hlen := copySlices_length hc
  subst hveq
  constructor
  · show sd.length = image0.columns * image0.rows * sorted.length
    rw [hlen, List.length_replicate]
    ring
  · show sorted.length = images.length
    exact sortImages_ok_length hs

/-- C2 witness: the two-slice 4x4 volume has buffer length 4 * 4 * 2 and
slice count 2. -/
theorem c2_witness :
    createVolumeViewport 0 [sliceA4, sliceB4] = .ok volAB
    ∧ volAB.scalarData.length
        = volAB.dimensions.1 * volAB.dimensions.2.1 * volAB.dimensions.2.2
    ∧ volAB.dimensions.2.2 = [sliceA4, sliceB4].length := by
  have hv : createVolumeViewport 0 [sliceA4, sliceB4] = .ok volAB := by
    with_unfolding_all decide
  exact ⟨hv, (c2_buffer_length hv).1, (c2_buffer_length hv).2⟩


theorem paddedSlice_length {k : PixelKind} {s : Nat} {img : DicomImage}
    (h : img.pixelData.length ≤ s) : (paddedSlice k s img).length = s := by
  simp only [paddedSlice, List.length_append, List.length_map,
    List.length_replicate]
  omega

theorem assembled_slot {now : Nat} {images sorted : List DicomImage} {z : ℚ}
    {o : Vec3} {image0 : DicomImage} {v : Volume}
    (hs : sortImages images = .ok (sorted, z, o))
    (hh : sorted.head? = some image0)
    (hfit : ∀ img ∈ sorted, img.pixelData.length ≤ image0.rows * image0.columns)
    (hv : createVolumeViewport now images = .ok v) :
    ∀ i (hi : i < sorted.length),
      ((v.scalarData.drop (i * (image0.rows * image0.columns))).take
          (image0.rows * image0.columns))
        = paddedSlice image0.pixelKind (image0.rows * image0.columns)
            (sorted.get ⟨i, hi⟩) := by
  intro i hi
  rw [createVolumeViewport_ok_of_fit hs hh hfit] at hv
  have hveq : v = buildVolume now image0 sorted.length z o
      ((sorted.map (paddedSlice image0.pixelKind
        (image0.rows * image0.columns))).flatten) := (Except.ok.inj hv).symm
  subst hveq
  have hL : ∀ l ∈ sorted.map (paddedSlice image0.pixelKind
      (image0.rows * image0.columns)), l.length = image0.rows * image0.columns := by
    intro l hl
    obtain ⟨img, hm, rfl⟩ := List.mem_map.mp hl
    exact paddedSlice_length (hfit img hm)
  have hi2 : i < (sorted.map (paddedSlice image0.pixelKind
      (image0.rows * image0.columns))).length := by simpa using hi
  have hslot := flatten_slot (sorted.map (paddedSlice image0.pixelKind
      (image0.rows * image0.columns))) i hi2 hL
  have hsd : (buildVolume now image0 sorted.length z o
      ((sorted.map (paddedSlice image0.pixelKind
        (image0.rows * image0.columns))).flatten)).scalarData
      = (sorted.map (paddedSlice image0.pixelKind
          (image0.rows * image0.columns))).flatten := rfl
  rw [hsd, hslot, List.get_eq_getElem, List.get_eq_getElem, List.getElem_map]

/-- C3: when all slices share the first post-sort slice's dimensions and
pixel kind (with representable sample values of full slice length), each
sorted slice is copied verbatim into its z-slot, so voxel (x, y, z) equals
sample y * columns + x of sorted slice z — no resampling or
interpolation. -/
theorem c3_verbatim_copy {now : Nat} {images sorted : List DicomImage} {z : ℚ}
    {o : Vec3} {image0 : DicomImage} {v : Volume}
    (hs : sortImages images = .ok (sorted, z, o))
    (hh : sorted.head? = some image0)
    (hdim : ∀ img ∈ sorted, img.rows = image0.rows
      ∧ img.columns = image0.columns ∧ img.pixelKind = image0.pixelKind)
    (hvalid : ∀ img ∈ sorted, ∀ q ∈ img.pixelData, image0.pixelKind.valid q)
    (hexact : ∀ img ∈ sorted,
      img.pixelData.length = image0.rows * image0.columns)
    (hv : createVolumeViewport now images = .ok v) :
    (∀ i (hi : i < sorted.length),
      ((v.scalarData.drop (i * (image0.rows * image0.columns))).take
          (image0.rows * image0.columns))
        = (sorted.get ⟨i, hi⟩).pixelData)
    ∧ (∀ i (hi : i < sorted.length) (x y : Nat),
        x < image0.columns → y < image0.rows →
        v.scalarData[i * (image0.rows * image0.columns)
            + (y * image0.columns + x)]?
          = (sorted.get ⟨i, hi⟩).pixelData[y * image0.columns + x]?) := by
  have hfit : ∀ img ∈ sorted,
      img.pixelData.length ≤ image0.rows * image0.columns :=
    fun img hm => (hexact img hm).le
  have hpad : ∀ i (hi : i < sorted.length),
      ((v.scalarData.drop (i * (image0.rows * image0.columns))).take
          (image0.rows * image0.columns))
        = (sorted.get ⟨i, hi⟩).pixelData := by
    intro i hi
    rw [assembled_slot hs hh hfit hv i hi]
    have hm : sorted.get ⟨i, hi⟩ ∈ sorted := List.get_mem sorted i hi
    have hmap := map_store_of_valid (k := image0.pixelKind)
      (hvalid (sorted.get ⟨i, hi⟩) hm)
    unfold paddedSlice
    rw [hexact _ hm, Nat.sub_self, List.replicate_zero, List.append_nil, hmap]
  refine ⟨hpad, ?_⟩
  intro i hi x y hx hy
  have hj : y * image0.columns + x < image0.rows * image0.columns := by
    have h1 : y * image0.columns + x < (y + 1) * image0.columns := by
      rw [Nat.succ_mul]
      omega
    have h2 : (y + 1) * image0.columns ≤ image0.rows * image0.columns :=
      Nat.mul_le_mul_right _ hy
    exact Nat.lt_of_lt_of_le h1 h2
  have hgd := hpad i hi
  calc v.scalarData[i * (image0.rows * image0.columns)
        + (y * image0.columns + x)]?
      = (v.scalarData.drop (i * (image0.rows
          * image0.columns)))[y * image0.columns + x]? := by
        rw [List.getElem?_drop]
    _ = ((v.scalarData.drop (i * (image0.rows * image0.columns))).take
          (image0.rows * image0.columns))[y * image0.columns + x]? := by
        rw [List.getElem?_take_of_lt hj]
    _ = (sorted.get ⟨i, hi⟩).pixelData[y * image0.columns + x]? := by rw [hgd]

/-- C9 (amended): when a later slice's kind differs from the first
post-sort slice's kind, no upcasting or reconciliation happens, and that
slice's samples are converted per element into the destination kind
(JavaScript `TypedArray.set` semantics: truncation toward zero and modular
wrapping for integer kinds) — not reinterpreted byte-for-byte. -/
theorem c9_mixed_kind_elementwise {now : Nat} {images sorted : List DicomImage}
    {z : ℚ} {o : Vec3} {image0 : DicomImage} {v : Volume}
    (hs : sortImages images = .ok (sorted, z, o))
    (hh : sorted.head? = some image0)
    (hmixed : ∃ img ∈ sorted, img.pixelKind ≠ image0.pixelKind)
    (hexact : ∀ img ∈ sorted,
      img.pixelData.length = image0.rows * image0.columns)
    (hv : createVolumeViewport now images = .ok v) :
    (∀ i (hi : i < sorted.length),
      ((v.scalarData.drop (i * (image0.rows * image0.columns))).take
          (image0.rows * image0.columns))
        = (sorted.get ⟨i, hi⟩).pixelData.map image0.pixelKind.store)
    ∧ v.scalarKind = image0.pixelKind := by
  have hfit : ∀ img ∈ sorted,
      img.pixelData.length ≤ image0.rows * image0.columns :=
    fun img hm => (hexact img hm).le
  constructor
  · intro i hi
    rw [assembled_slot hs hh hfit hv i hi]
    have hm : sorted.get ⟨i, hi⟩ ∈ sorted := List.get_mem sorted i hi
    unfold paddedSlice
    rw [hexact _ hm, Nat.sub_self, List.replicate_zero, List.append_nil]
  · obtain ⟨sd, hc, hveq⟩ := createVolumeViewport_ok_inv hs hh hv
    rw [hveq]
    rfl

/-- C10: with equal pixel kinds, representable samples, and every slice's
sample array no longer than the slot size, assembly succeeds, each short
slice's samples land at the start of its z-slot, and the slot's uncovered
tail keeps the buffer's zero initialization. -/
theorem c10_short_slice_zero_fill {now : Nat} {images sorted : List DicomImage}
    {z : ℚ} {o : Vec3} {image0 : DicomImage}
    (hs : sortImages images = .ok (sorted, z, o))
    (hh : sorted.head? = some image0)
    (hkind : ∀ img ∈ sorted, img.pixelKind = image0.pixelKind)
    (hvalid : ∀ img ∈ sorted, ∀ q ∈ img.pixelData, image0.pixelKind.valid q)
    (hfit : ∀ img ∈ sorted,
      img.pixelData.length ≤ image0.rows * image0.columns) :
    (createVolumeViewport now images).toOption.isSome = true
    ∧ ∀ v, createVolumeViewport now images = .ok v →
        ∀ i (hi : i < sorted.length),
          ((v.scalarData.drop (i * (image0.rows * image0.columns))).take
              (image0.rows * image0.columns))
            = (sorted.get ⟨i, hi⟩).pixelData
              ++ List.replicate ((image0.rows * image0.columns)
                  - (sorted.get ⟨i, hi⟩).pixelData.length) 0 := by
  constructor
  · rw [createVolumeViewport_ok_of_fit hs hh hfit]
    rfl
  · intro v hv i hi
    rw [assembled_slot hs hh hfit hv i hi]
    have hm : sorted.get ⟨i, hi⟩ ∈ sorted := List.get_mem sorted i hi
    have hmap := map_store_of_valid (k := image0.pixelKind)
      (hvalid (sorted.get ⟨i, hi⟩) hm)
    unfold paddedSlice
    rw [hmap]


/-- C1: three slices with identity orientation axes and `positionPatient`
z-components 30, 10, 20 are sorted ascending by projected depth as
[z = 10, z = 20, z = 30], `zSpacing` is (30 - 10) / (3 - 1) = 10, and the
origin is the `positionPatient` of the depth-minimal slice. -/
theorem c1_sort_by_depth (s1 s2 s3 : DicomImage) (x1 y1 x2 y2 x3 y3 : ℚ)
    (h1 : s1.origin = some (x1, y1, 30))
    (h2 : s2.origin = some (x2, y2, 10))
    (h3 : s3.origin = some (x3, y3, 20))
    (hd1 : s1.direction = some identityDirection)
    (hd2 : s2.direction = some identityDirection)
    (hd3 : s3.direction = some identityDirection) :
    sortImages [s1, s2, s3] = .ok ([s2, s3, s1], 10, (x2, y2, 10)) := by
  have hor : orientationOf s1 = some ((1, 0, 0), (0, 1, 0)) := by
    simp [orientationOf, hd1, identityDirection]
  have hcross : cross ((1 : ℚ), (0 : ℚ), (0 : ℚ)) ((0 : ℚ), (1 : ℚ), (0 : ℚ))
      = (0, 0, 1) := by
    norm_num [cross]
  have e1 : depthAlong (0, 0, 1) s1 = 30 := by simp [depthAlong, dot, h1]
  have e2 : depthAlong (0, 0, 1) s2 = 10 := by simp [depthAlong, dot, h2]
  have e3 : depthAlong (0, 0, 1) s3 = 20 := by simp [depthAlong, dot, h3]
  have c23 : depthAlong (0, 0, 1) s2 ≤ depthAlong (0, 0, 1) s3 := by
    rw [e2, e3]; norm_num
  have c12 : ¬ depthAlong (0, 0, 1) s1 ≤ depthAlong (0, 0, 1) s2 := by
    rw [e1, e2]; norm_num
  have c13 : ¬ depthAlong (0, 0, 1) s1 ≤ depthAlong (0, 0, 1) s3 := by
    rw [e1, e3]; norm_num
  simp only [sortImages, sortImageIdsAndGetSpacing, h1, hor, hcross]
  simp only [List.insertionSort, List.orderedInsert]
  rw [if_pos c23]
  unfold List.orderedInsert
  rw [if_neg c12]
  unfold List.orderedInsert
  rw [if_neg c13]
  unfold List.orderedInsert
  simp [e1, e2, h2]
  norm_num

/-- C1 witness: the sorter on the three concrete geometric slices with
z-components 30, 10, 20. -/
theorem c1_witness :
    geoSliceA.origin = some (0, 0, 30)
    ∧ geoSliceB.origin = some (5, 6, 10)
    ∧ geoSliceC.origin = some (0, 0, 20)
    ∧ sortImages [geoSliceA, geoSliceB, geoSliceC]
        = .ok ([geoSliceB, geoSliceC, geoSliceA], 10, (5, 6, 10)) :=
  ⟨rfl, rfl, rfl,
    c1_sort_by_depth geoSliceA geoSliceB geoSliceC 0 0 5 6 0 0
      rfl rfl rfl rfl rfl rfl⟩

/-- C6 counterexample: two slices whose `rows` differ (4x4 and 2x8, same
16-sample area) are assembled into a volume — no `DimensionMismatch`
error is returned and nothing is rejected. -/
theorem c6_counterexample :
    sliceA4.rows ≠ mismatchB.rows
    ∧ (assembleVolume 0 [sliceA4, mismatchB]).toOption.isSome = true := by
  constructor
  · with_unfolding_all decide
  · with_unfolding_all decide

/-- C6 (amended): the assembler performs no rows/columns comparison at
all: even when two slices' `rows` or `columns` differ, it allocates the
buffer from the first post-sort slice's dimensions and returns a volume
whenever every slice's sample array fits its z-slot; only a copy that
overruns the buffer fails (with a range error, after allocation). -/
theorem c6_no_dimension_check {now : Nat} {images sorted : List DicomImage}
    {z : ℚ} {o : Vec3} {image0 : DicomImage}
    (hs : sortImages images = .ok (sorted, z, o))
    (hh : sorted.head? = some image0)
    (hmism : ∃ imgA ∈ sorted, ∃ imgB ∈ sorted,
      imgA.rows ≠ imgB.rows ∨ imgA.columns ≠ imgB.columns)
    (hfit : ∀ img ∈ sorted,
      img.pixelData.length ≤ image0.rows * image0.columns) :
    (createVolumeViewport now images).toOption.isSome = true := by
  rw [createVolumeViewport_ok_of_fit hs hh hfit]
  rfl

/-- C6 witness: the 4x4 and 2x8 pair passes through the assembler
unrejected. -/
theorem c6_witness :
    sliceA4.rows ≠ mismatchB.rows
    ∧ (∀ img ∈ [sliceA4, mismatchB],
        img.pixelData.length ≤ sliceA4.rows * sliceA4.columns)
    ∧ (createVolumeViewport 0 [sliceA4, mismatchB]).toOption.isSome = true := by
  have hs : sortImages [sliceA4, mismatchB]
      = .ok ([sliceA4, mismatchB], 1, (0, 0, 0)) := by with_unfolding_all decide
  have hfit : ∀ img ∈ [sliceA4, mismatchB],
      img.pixelData.length ≤ sliceA4.rows * sliceA4.columns := by
    with_unfolding_all decide
  have hmism : ∃ imgA ∈ [sliceA4, mismatchB], ∃ imgB ∈ [sliceA4, mismatchB],
      imgA.rows ≠ imgB.rows ∨ imgA.columns ≠ imgB.columns := by
    refine ⟨sliceA4, by simp, mismatchB, by simp, Or.inl ?_⟩
    with_unfolding_all decide
  exact ⟨by with_unfolding_all decide, hfit,
    c6_no_dimension_check hs rfl hmism hfit⟩

/-- C8 counterexample: when the first slice lacks `frameOfReferenceUID`
the metadata embeds the wall clock (`FOR-${Date.now()}`), so two runs on
identical inputs at different instants return different volumes. -/
theorem c8_counterexample :
    (createVolumeViewport 0 [sliceA4]).toOption.map
        (fun v => v.metadata.frameOfReferenceUID) = some (forFallbackUID 0)
    ∧ (createVolumeViewport 1 [sliceA4]).toOption.map
        (fun v => v.metadata.frameOfReferenceUID) = some (forFallbackUID 1)
    ∧ forFallbackUID 0 ≠ forFallbackUID 1
    ∧ createVolumeViewport 0 [sliceA4] ≠ createVolumeViewport 1 [sliceA4] := by
  refine ⟨?_, ?_, ?_, ?_⟩
  · with_unfolding_all decide
  · with_unfolding_all decide
  · with_unfolding_all decide
  · with_unfolding_all decide

/-- C8 (amended): assembly is a pure function of the slice contents —
deterministic across runs — provided the first post-sort slice carries a
nonempty `frameOfReferenceUID`; only the metadata frame-of-reference
fallback consults the wall clock. -/
theorem c8_deterministic {now1 now2 : Nat} {images sorted : List DicomImage}
    {z : ℚ} {o : Vec3} {image0 : DicomImage} {uid : String}
    (hs : sortImages images = .ok (sorted, z, o))
    (hh : sorted.head? = some image0)
    (hu : image0.frameOfReferenceUID = some uid)
    (hne : uid ≠ "") :
    assembleVolume now1 images = assembleVolume now2 images := by
  unfold assembleVolume
  rw [createVolumeViewport_primary hs hh, createVolumeViewport_primary hs hh]
  cases hc : copySlices image0.pixelKind (image0.rows * image0.columns)
      (List.replicate ((image0.rows * image0.columns) * sorted.length) 0)
      sorted 0 with
  | error e => rfl
  | ok sd => simp [buildVolume, strOrFalsy, hu, hne]

/-- C8 witness: two runs at `Date.now()` values 0 and 1 on a slice that
carries a frame-of-reference identifier agree exactly. -/
theorem c8_witness :
    uidImg.frameOfReferenceUID = some uidSample
    ∧ uidSample ≠ ""
    ∧ assembleVolume 0 [uidImg] = assembleVolume 1 [uidImg] := by
  have hs : sortImages [uidImg] = .ok ([uidImg], 1, (0, 0, 0)) := by
    with_unfolding_all decide
  have hne : uidSample ≠ "" := by with_unfolding_all decide
  exact ⟨rfl, hne, c8_deterministic hs rfl rfl hne⟩

/-- C9 counterexample: the float32 sample 1.5 written into the int16
buffer becomes 1 — the per-element numeric truncation of 1.5 — not a
byte-level reinterpretation of the 4-byte float pattern (which could not
produce 1 in a single 2-byte cell). -/
theorem c9_counterexample :
    mixImgB.pixelKind ≠ mixImgA.pixelKind
    ∧ createVolumeViewport 0 [mixImgA, mixImgB] = .ok volMixed
    ∧ volMixed.scalarData = [100, 1]
    ∧ PixelKind.int16.store (3 / 2) = 1
    ∧ (3 / 2 : ℚ) ≠ 1 := by
  refine ⟨?_, ?_, ?_, ?_, ?_⟩
  · with_unfolding_all decide
  · with_unfolding_all decide
  · with_unfolding_all decide
  · with_unfolding_all decide
  · with_unfolding_all decide

/-- C9 witness: in the mixed int16/float32 pair the second z-slot equals
the float samples converted per element to int16. -/
theorem c9_witness :
    mixImgB.pixelKind ≠ mixImgA.pixelKind
    ∧ ((volMixed.scalarData.drop (1 * (mixImgA.rows * mixImgA.columns))).take
        (mixImgA.rows * mixImgA.columns))
      = ([mixImgA, mixImgB].get ⟨1, by decide⟩).pixelData.map
          mixImgA.pixelKind.store
    ∧ volMixed.scalarKind = mixImgA.pixelKind := by
  have hs : sortImages [mixImgA, mixImgB]
      = .ok ([mixImgA, mixImgB], 1, (0, 0, 0)) := by with_unfolding_all decide
  have hexact : ∀ img ∈ [mixImgA, mixImgB],
      img.pixelData.length = mixImgA.rows * mixImgA.columns := by
    with_unfolding_all decide
  have hmixed : ∃ img ∈ [mixImgA, mixImgB],
      img.pixelKind ≠ mixImgA.pixelKind :=
    ⟨mixImgB, by simp, by with_unfolding_all decide⟩
  have hv : createVolumeViewport 0 [mixImgA, mixImgB] = .ok volMixed := by
    with_unfolding_all decide
  have hres := c9_mixed_kind_elementwise hs rfl hmixed hexact hv
  exact ⟨by with_unfolding_all decide, hres.1 1 (by decide), hres.2⟩

/-- C3 witness: in the 4x4 pair each slice occupies its z-slot verbatim;
slot 1 equals the second slice's samples, and voxel (2, 1, 1) equals
sample 1 * 4 + 2 of the second slice. -/
theorem c3_witness :
    ((volAB.scalarData.drop (1 * (sliceA4.rows * sliceA4.columns))).take
        (sliceA4.rows * sliceA4.columns))
      = ([sliceA4, sliceB4].get ⟨1, by decide⟩).pixelData
    ∧ volAB.scalarData[1 * (sliceA4.rows * sliceA4.columns)
        + (1 * sliceA4.columns + 2)]?
      = ([sliceA4, sliceB4].get ⟨1, by decide⟩).pixelData[1 * sliceA4.columns
          + 2]? := by
  have hs : sortImages [sliceA4, sliceB4]
      = .ok ([sliceA4, sliceB4], 1, (0, 0, 0)) := by with_unfolding_all decide
  have hv : createVolumeViewport 0 [sliceA4, sliceB4] = .ok volAB := by
    with_unfolding_all decide
  have hdim : ∀ img ∈ [sliceA4, sliceB4], img.rows = sliceA4.rows
      ∧ img.columns = sliceA4.columns ∧ img.pixelKind = sliceA4.pixelKind := by
    with_unfolding_all decide
  have hvalid : ∀ img ∈ [sliceA4, sliceB4], ∀ q ∈ img.pixelData,
      sliceA4.pixelKind.valid q := by with_unfolding_all decide
  have hexact : ∀ img ∈ [sliceA4, sliceB4],
      img.pixelData.length = sliceA4.rows * sliceA4.columns := by
    with_unfolding_all decide
  have hres := c3_verbatim_copy hs rfl hdim hvalid hexact hv
  exact ⟨hres.1 1 (by decide), hres.2 1 (by decide) 2 1
    (by with_unfolding_all decide) (by with_unfolding_all decide)⟩

/-- C10 witness: the short second slice's slot holds its single sample
followed by the zero initialization. -/
theorem c10_witness :
    (createVolumeViewport 0 [shortImgA, shortImgB]).toOption.isSome = true
    ∧ ((volShort.scalarData.drop (1 * (shortImgA.rows * shortImgA.columns))).take
        (shortImgA.rows * shortImgA.columns))
      = ([shortImgA, shortImgB].get ⟨1, by decide⟩).pixelData
        ++ List.replicate ((shortImgA.rows * shortImgA.columns)
            - ([shortImgA, shortImgB].get ⟨1, by decide⟩).pixelData.length) 0 := by
  have hs : sortImages [shortImgA, shortImgB]
      = .ok ([shortImgA, shortImgB], 1, (0, 0, 0)) := by
    with_unfolding_all decide
  have hkind : ∀ img ∈ [shortImgA, shortImgB],
      img.pixelKind = shortImgA.pixelKind := by with_unfolding_all decide
  have hvalid : ∀ img ∈ [shortImgA, shortImgB], ∀ q ∈ img.pixelData,
      shortImgA.pixelKind.valid q := by with_unfolding_all decide
  have hfit : ∀ img ∈ [shortImgA, shortImgB],
      img.pixelData.length ≤ shortImgA.rows * shortImgA.columns := by
    with_unfolding_all decide
  have hv : createVolumeViewport 0 [shortImgA, shortImgB] = .ok volShort := by
    with_unfolding_all decide
  refine ⟨?_, ?_⟩
  · exact (c10_short_slice_zero_fill hs rfl hkind hvalid hfit).1
  · exact (c10_short_slice_zero_fill hs rfl hkind hvalid hfit).2 volShort hv 1
      (by decide)

end Pacs
